import Mathlib

/-!
Shallow embedding of `openVO`'s `OAK_Camera` (file `src/openVO/oakd/camera.py`).

Conventions of the embedding:
* numpy matrices over pixel/calibration values are matrices over `ℚ`
  (the formulas under verification are exact matrix identities);
* a 2D image ("frame") is a total pixel function `ℕ → ℕ → ℚ`;
* Python code that can raise is embedded in `Except Err`;
* a Python instance attribute that may not have been assigned yet
  (reading it raises `AttributeError`) is an outer `Option` layer.
-/

abbrev Mat3 := Matrix (Fin 3) (Fin 3) ℚ

abbrev Mat4 := Matrix (Fin 4) (Fin 4) ℚ

abbrev Frame := ℕ → ℕ → ℚ

abbrev PointCloud := ℕ → ℕ → Option (ℚ × ℚ × ℚ)

/-- The Python exceptions / error outcomes that the embedded code can produce.
`configurationError` does not occur in the code: it stands for the explicit
configuration-error rejection that the spec's error taxonomy describes, and
exists so that the spec's claimed behaviour can be compared with the code's. -/
inductive Err
  | attributeError
  | zeroDivisionError
  | linAlgError
  | notImplementedError
  | configurationError
deriving DecidableEq

/-- `dai.CameraBoardSocket` members used by `camera.py`. -/
inductive Socket
  | RGB
  | LEFT
  | RIGHT
deriving DecidableEq

/-- The device calibration interface (`device.readCalibration()` result), an
external collaborator: `getCameraIntrinsics(socket, width, height)`,
`getDistortionCoefficients`, `getFov`, the two stereo rectification
rotations, and `getBaselineDistance`. -/
structure CalibData where
  intrinsics : Socket → ℕ → ℕ → Mat3
  distortion : Socket → List ℚ
  fov : Socket → ℚ
  stereoLeftRot : Mat3
  stereoRightRot : Mat3
  baselineDistance : ℚ

/-- `np.linalg.inv` on a 3×3 matrix, on the nonsingular inputs on which the
code reaches it (`mkCamera` errors out first, as numpy raises `LinAlgError`,
when the determinant is zero). -/
def inv3 (M : Mat3) : Mat3 := M.det⁻¹ • M.adjugate

/-- The reprojection matrix literal built in `__init__` (lines 70–77):
`[[1,0,0,-cx],[0,1,0,-cy],[0,0,0,f],[0,0,-1/baseline,0]]`. -/
def mkQ (cx cy f b : ℚ) : Mat4 :=
  Matrix.of ![![1, 0, 0, -cx], ![0, 1, 0, -cy], ![0, 0, 0, f], ![0, 0, -1 / b, 0]]

/-- The immutable per-instance data computed by `OAK_Camera.__init__`
(lines 18–77): sizes, stereo flags, calibration matrices, the two
rectification homographies, the baseline and the reprojection matrix `Q`. -/
structure Camera where
  rgb_width : ℕ
  rgb_height : ℕ
  left_width : ℕ
  right_width : ℕ
  left_height : ℕ
  right_height : ℕ
  extended_disparity : Bool
  subpixel : Bool
  lr_check : Bool
  M_rgb : Mat3
  M_left : Mat3
  M_right : Mat3
  D_left : List ℚ
  D_right : List ℚ
  rgb_fov : ℚ
  mono_fov : ℚ
  R1 : Mat3
  R2 : Mat3
  H_left : Mat3
  H_right : Mat3
  baseline : ℚ
  focal_length : ℚ
  cx : ℚ
  cy : ℚ
  Q : Mat4

/-- The record `__init__` builds once all fallible steps have succeeded.
Note the code's own argument choices, kept verbatim:
* `M_rgb` is queried at `(self._right_width, self._rgb_height)` (line 34),
  i.e. at the mono width paired with the RGB height;
* both homographies use `R1`, the LEFT rectification rotation (lines 59–64);
* `Q` is built from `M_left`'s focal length and principal point plus the
  baseline (lines 68–77). -/
def mkCameraOk (rgb_size mono_size : ℕ × ℕ)
    (extended_disparity subpixel lr_check : Bool) (calib : CalibData) : Camera :=
  { rgb_width := rgb_size.1
    rgb_height := rgb_size.2
    left_width := mono_size.1
    right_width := mono_size.1
    left_height := mono_size.2
    right_height := mono_size.2
    extended_disparity := extended_disparity
    subpixel := subpixel
    lr_check := lr_check
    M_rgb := calib.intrinsics .RGB mono_size.1 rgb_size.2
    M_left := calib.intrinsics .LEFT mono_size.1 mono_size.2
    M_right := calib.intrinsics .RIGHT mono_size.1 mono_size.2
    D_left := calib.distortion .LEFT
    D_right := calib.distortion .RIGHT
    rgb_fov := calib.fov .RGB
    mono_fov := calib.fov .LEFT
    R1 := calib.stereoLeftRot
    R2 := calib.stereoRightRot
    H_left := calib.intrinsics .RIGHT mono_size.1 mono_size.2 * calib.stereoLeftRot *
      inv3 (calib.intrinsics .LEFT mono_size.1 mono_size.2)
    H_right := calib.intrinsics .RIGHT mono_size.1 mono_size.2 * calib.stereoLeftRot *
      inv3 (calib.intrinsics .RIGHT mono_size.1 mono_size.2)
    baseline := calib.baselineDistance
    focal_length := calib.intrinsics .LEFT mono_size.1 mono_size.2 0 0
    cx := calib.intrinsics .LEFT mono_size.1 mono_size.2 0 2
    cy := calib.intrinsics .LEFT mono_size.1 mono_size.2 1 2
    Q := mkQ (calib.intrinsics .LEFT mono_size.1 mono_size.2 0 2)
      (calib.intrinsics .LEFT mono_size.1 mono_size.2 1 2)
      (calib.intrinsics .LEFT mono_size.1 mono_size.2 0 0)
      calib.baselineDistance }

/-- `OAK_Camera.__init__`, lines 18–77, as a fallible constructor.  The
fallible steps, in the code's evaluation order: `np.linalg.inv(M_left)`
raises `LinAlgError` on a singular matrix while `H_left` is built (line 60),
then `np.linalg.inv(M_right)` likewise for `H_right` (line 63), then
`-1.0 / self._baseline` raises `ZeroDivisionError` inside the `Q` literal
(line 75) when the baseline is zero.  There is no explicit validation of the
baseline anywhere before that division. -/
def mkCamera (rgb_size mono_size : ℕ × ℕ)
    (extended_disparity subpixel lr_check : Bool) (calib : CalibData) :
    Except Err Camera :=
  if (calib.intrinsics .LEFT mono_size.1 mono_size.2).det = 0 then .error .linAlgError
  else if (calib.intrinsics .RIGHT mono_size.1 mono_size.2).det = 0 then .error .linAlgError
  else if calib.baselineDistance = 0 then .error .zeroDivisionError
  else .ok (mkCameraOk rgb_size mono_size extended_disparity subpixel lr_check calib)

/-- The mutable per-frame attributes of an `OAK_Camera` instance.
`__init__` (lines 89–94) assigns the first six attributes the value `None`;
the last four attributes are *never assigned by `__init__`*: they are created
only by the acquisition loop's assignments (lines 275–281), so reading them
before that raises `AttributeError`.  For those four, the outer `Option`
records whether the attribute exists at all, and the inner `Option Frame` is
its Python value (in the code, every assignment stores an actual frame). -/
structure FrameState where
  rgb_frame : Option Frame
  depth_frame : Option Frame
  left_frame : Option Frame
  right_frame : Option Frame
  rectified_left_frame : Option Frame
  rectified_right_frame : Option Frame
  color_frame : Option (Option Frame)
  disparity : Option (Option Frame)
  left_rect_frame : Option (Option Frame)
  right_rect_frame : Option (Option Frame)

/-- The frame attributes as `__init__` leaves them (lines 89–94): the six
declared slots hold `None`; the four loop-created attributes do not exist. -/
def initFrames : FrameState :=
  { rgb_frame := none
    depth_frame := none
    left_frame := none
    right_frame := none
    rectified_left_frame := none
    rectified_right_frame := none
    color_frame := none
    disparity := none
    left_rect_frame := none
    right_rect_frame := none }

/-- Property `OAK_Camera.rgb_frame` (lines 100–105): returns `self._rgb_frame`. -/
def OAK_Camera.rgb_frame (f : FrameState) : Option Frame := f.rgb_frame

/-- Property `OAK_Camera.disparity` (lines 107–112): returns `self._depth_frame`. -/
def OAK_Camera.disparity (f : FrameState) : Option Frame := f.depth_frame

/-- Property `OAK_Camera.left_frame` (lines 114–119): returns `self._left_frame`. -/
def OAK_Camera.left_frame (f : FrameState) : Option Frame := f.left_frame

/-- Property `OAK_Camera.right_frame` (lines 121–126): returns `self._right_frame`. -/
def OAK_Camera.right_frame (f : FrameState) : Option Frame := f.right_frame

/-- Property `OAK_Camera.rectified_left_frame` (lines 128–133):
returns `self._rectified_left_frame`. -/
def OAK_Camera.rectified_left_frame (f : FrameState) : Option Frame :=
  f.rectified_left_frame

/-- Property `OAK_Camera.rectified_right_frame` (lines 135–140):
returns `self._rectified_right_frame`. -/
def OAK_Camera.rectified_right_frame (f : FrameState) : Option Frame :=
  f.rectified_right_frame

/-- The keys of `self._nodes`, in insertion order: `"color_camera"` from
`_create_cam_rgb` (line 203) and the five keys of `_create_stereo`
(lines 251–255).  `_target` (lines 262–266) creates one host output queue
per key (the tuple values of `_nodes` are never `None`, so the guard on
line 263 excludes nothing). -/
def nodeKeys : List String :=
  ["color_camera", "stereo", "mono_left", "mono_right", "rectified_left", "rectified_right"]

/-- The stream names actually declared on `XLinkOut` nodes by
`setStreamName` (lines 187, 212, 214, 216).  Note `"stereo"`, `"mono_left"`
and `"mono_right"` are *not* among them, and no queue key is `"disparity"`. -/
def declaredStreamNames : List String :=
  ["color_camera", "disparity", "rectified_left", "rectified_right"]

/-- Host output-queue configuration: `device.getOutputQueue(name=key,
maxSize=1, blocking=False)` (lines 264–266). -/
structure OutputQueueCfg where
  name : String
  maxSize : ℕ
  blocking : Bool
deriving DecidableEq

/-- The queues `_target` creates: one per node key, each with `maxSize=1`
and `blocking=False`. -/
def outputQueues : List OutputQueueCfg :=
  nodeKeys.map fun k => { name := k, maxSize := 1, blocking := false }

/-- One arm of the `if name == ...` chain in the loop body (lines 274–285):
store the received frame in the attribute selected by the queue's key.
Keys matching no arm (such as `"stereo"`) leave the state unchanged, and no
arm assigns `self._rgb_frame`, `self._depth_frame`,
`self._rectified_left_frame` or `self._rectified_right_frame`. -/
def updateSlot (f : FrameState) (name : String) (fr : Frame) : FrameState :=
  if name = "color_camera" then { f with color_frame := some (some fr) }
  else if name = "disparity" then { f with disparity := some (some fr) }
  else if name = "rectified_left" then { f with left_rect_frame := some (some fr) }
  else if name = "rectified_right" then { f with right_rect_frame := some (some fr) }
  else if name = "mono_left" then { f with left_frame := some fr }
  else if name = "mono_right" then { f with right_frame := some fr }
  else f

/-- The `for name, queue in queues.items()` body (lines 271–285).  `arr k`
is the content the key-`k` queue will deliver during this iteration: `some
fr` when a frame is available, `none` when the queue stays empty.
`queue.get()` is depthai's *blocking* receive (the non-blocking variant is
`tryGet`), so on an empty queue the loop stalls inside `get()` and the
iteration never completes: result `none`. -/
def pollQueues (f : FrameState) : List String → (String → Option Frame) → Option FrameState
  | [], _ => some f
  | k :: ks, arr =>
    match arr k with
    | none => none
    | some fr => pollQueues (updateSlot f k fr) ks arr

/-- One iteration of the acquisition loop's `while` body (lines 269–285),
executed with `self._data_lock` held: poll every queue in `nodeKeys` order. -/
def iteration (f : FrameState) (arr : String → Option Frame) : Option FrameState :=
  pollQueues f nodeKeys arr

/-- Any finite run of the acquisition loop: one `arr` per iteration.
Because both the loop body and `compute_3d`'s snapshot hold
`self._data_lock`, iterations are atomic with respect to readers, so every
state a reader can observe is a state reached by some such run. -/
def runLoop : FrameState → List (String → Option Frame) → Option FrameState
  | f, [] => some f
  | f, a :: more =>
    match iteration f a with
    | none => none
    | some f2 => runLoop f2 more

/-- A camera instance together with its mutable frame attributes. -/
structure OakState where
  cam : Camera
  frames : FrameState

/-- One loop iteration on the full instance state: only frame attributes
change; everything computed by `__init__` (including `Q`) is untouched. -/
def loopIteration (s : OakState) (arr : String → Option Frame) : Option OakState :=
  (iteration s.frames arr).map fun f => { cam := s.cam, frames := f }

/-- Modelled from the spec: `cv2.reprojectImageTo3D` is external OpenCV
code, embedded here by the spec's algorithm — the homogeneous point
`Q · [x, y, d, 1]ᵗ` dehomogenized by its fourth component; a zero fourth
component (zero/invalid disparity) produces the sentinel (infinite or NaN)
point, embedded as `none`. -/
def reproject (Q : Mat4) (x y d : ℚ) : Option (ℚ × ℚ × ℚ) :=
  let X := Q 0 0 * x + Q 0 1 * y + Q 0 2 * d + Q 0 3
  let Y := Q 1 0 * x + Q 1 1 * y + Q 1 2 * d + Q 1 3
  let Z := Q 2 0 * x + Q 2 1 * y + Q 2 2 * d + Q 2 3
  let W := Q 3 0 * x + Q 3 1 * y + Q 3 2 * d + Q 3 3
  if W = 0 then none else some (X / W, Y / W, Z / W)

/-- Modelled from the spec: `cv2.reprojectImageTo3D` applied to a whole
disparity image, pixelwise `reproject`. -/
def reprojectImageTo3D (disp : Frame) (Q : Mat4) : PointCloud :=
  fun x y => reproject Q x y (disp x y)

/-- `OAK_Camera.compute_3d` (lines 287–299).  Under the lock it reads
`self._disparity` — raising `AttributeError` when that attribute was never
assigned — and `self._rectified_left_frame`; if either is `None` it returns
the not-ready triple `(None, None, None)` (embedded as `.ok none`);
otherwise it reprojects the disparity with `self._Q` and returns the triple. -/
def compute_3d (cam : Camera) (f : FrameState) :
    Except Err (Option (PointCloud × Frame × Frame)) :=
  match f.disparity with
  | none => .error .attributeError
  | some dval =>
    match dval, f.rectified_left_frame with
    | none, _ => .ok none
    | _, none => .ok none
    | some d, some l => .ok (some (reprojectImageTo3D d cam.Q, d, l))

/-- `dai.ColorCameraProperties.SensorResolution` presets selected by
`_create_cam_rgb` (lines 190, 192). -/
inductive ColorResolution
  | the1080P
  | the4K
deriving DecidableEq

/-- The color-camera node and its `XLinkOut` as `_create_cam_rgb` configures
them (lines 184–203). -/
structure CamRgbNode where
  boardSocket : Socket
  resolution : ColorResolution
  videoWidth : ℕ
  videoHeight : ℕ
  streamName : String
  xoutInputBlocking : Bool
  xoutInputQueueSize : ℕ
deriving DecidableEq

/-- `OAK_Camera._create_cam_rgb` (lines 184–203): select the sensor preset
from the configured height — `1080 → THE_1080_P`, `2160 → THE_4_K`, anything
else raises `NotImplementedError` — then set the video size to the
configured width and height unchanged. -/
def create_cam_rgb (rgb_width rgb_height : ℕ) : Except Err CamRgbNode :=
  if rgb_height = 1080 then
    .ok { boardSocket := .RGB, resolution := .the1080P, videoWidth := rgb_width,
          videoHeight := rgb_height, streamName := "color_camera",
          xoutInputBlocking := false, xoutInputQueueSize := 1 }
  else if rgb_height = 2160 then
    .ok { boardSocket := .RGB, resolution := .the4K, videoWidth := rgb_width,
          videoHeight := rgb_height, streamName := "color_camera",
          xoutInputBlocking := false, xoutInputQueueSize := 1 }
  else .error .notImplementedError

/-- The stereo subgraph `_create_stereo` declares (lines 205–255); it has no
failure path.  Only the parts relevant to the claims are recorded. -/
structure StereoNodes where
  lrCheck : Bool
  extendedDisparity : Bool
  subpixel : Bool
  streamNames : List String
deriving DecidableEq

/-- `OAK_Camera._create_stereo` (lines 205–255). -/
def create_stereo (extended_disparity subpixel lr_check : Bool) : StereoNodes :=
  { lrCheck := lr_check
    extendedDisparity := extended_disparity
    subpixel := subpixel
    streamNames := ["disparity", "rectified_left", "rectified_right"] }

/-- The prefix of `OAK_Camera._target` (lines 257–260): build the pipeline
(`_create_cam_rgb`, then `_create_stereo`), and only then open the device
(`dai.Device(self._pipeline)`, modelled by the caller-supplied `openDevice`
so the result can be shown independent of any device behaviour). -/
def targetSetup {α : Type} (cam : Camera) (openDevice : CamRgbNode → StereoNodes → Except Err α) :
    Except Err α := do
  let rgbNode ← create_cam_rgb cam.rgb_width cam.rgb_height
  let stereoNodes := create_stereo cam.extended_disparity cam.subpixel cam.lr_check
  openDevice rgbNode stereoNodes

theorem mkCamera_eq_ok (rgb_size mono_size : ℕ × ℕ)
    (extended_disparity subpixel lr_check : Bool) (calib : CalibData)
    (hL : (calib.intrinsics .LEFT mono_size.1 mono_size.2).det ≠ 0)
    (hR : (calib.intrinsics .RIGHT mono_size.1 mono_size.2).det ≠ 0)
    (hb : calib.baselineDistance ≠ 0) :
    mkCamera rgb_size mono_size extended_disparity subpixel lr_check calib =
      .ok (mkCameraOk rgb_size mono_size extended_disparity subpixel lr_check calib) := by
  simp [mkCamera, hL, hR, hb]

theorem inv3_mul_self {M : Mat3} (h : M.det ≠ 0) : M * inv3 M = 1 := by
  rw [inv3, Matrix.mul_smul, Matrix.mul_adjugate, smul_smul, inv_mul_cancel₀ h, one_smul]

theorem self_mul_inv3 {M : Mat3} (h : M.det ≠ 0) : inv3 M * M = 1 := by
  rw [inv3, Matrix.smul_mul, Matrix.adjugate_mul, smul_smul, inv_mul_cancel₀ h, one_smul]

theorem loopIteration_cam (s : OakState) (arr : String → Option Frame) (s2 : OakState)
    (h : loopIteration s arr = some s2) : s2.cam = s.cam := by
  unfold loopIteration at h
  rcases hi : iteration s.frames arr with _ | f2
  · rw [hi] at h; cases h
  · rw [hi, Option.map_some'] at h
    cases h
    rfl

/-- Claim C4: for every construction with nonzero baseline (and calibration on
which construction succeeds at all, i.e. invertible mono intrinsics), the
reprojection matrix `Q` built at init equals
`[[1,0,0,-cx],[0,1,0,-cy],[0,0,0,f],[0,0,-1/baseline,0]]` with
`f = M_left[0][0]`, `cx = M_left[0][2]`, `cy = M_left[1][2]`; in particular
`Q[2][3] = f` and `Q[3][2] = -1/baseline`; and `Q` is computed once at
construction and never mutated by the acquisition loop afterwards. -/
theorem c4_reprojection_matrix (rgb_size mono_size : ℕ × ℕ)
    (extended_disparity subpixel lr_check : Bool) (calib : CalibData)
    (hL : (calib.intrinsics .LEFT mono_size.1 mono_size.2).det ≠ 0)
    (hR : (calib.intrinsics .RIGHT mono_size.1 mono_size.2).det ≠ 0)
    (hb : calib.baselineDistance ≠ 0) :
    ∃ cam : Camera,
      mkCamera rgb_size mono_size extended_disparity subpixel lr_check calib = .ok cam ∧
      cam.M_left = calib.intrinsics .LEFT mono_size.1 mono_size.2 ∧
      cam.baseline = calib.baselineDistance ∧
      cam.Q = Matrix.of ![![1, 0, 0, -(cam.M_left 0 2)], ![0, 1, 0, -(cam.M_left 1 2)],
        ![0, 0, 0, cam.M_left 0 0], ![0, 0, -1 / cam.baseline, 0]] ∧
      cam.Q 2 3 = cam.M_left 0 0 ∧
      cam.Q 3 2 = -1 / cam.baseline ∧
      (∀ (fr : FrameState) (arr : String → Option Frame) (s2 : OakState),
        loopIteration ⟨cam, fr⟩ arr = some s2 → s2.cam.Q = cam.Q) := by
  refine ⟨mkCameraOk rgb_size mono_size extended_disparity subpixel lr_check calib,
    mkCamera_eq_ok rgb_size mono_size extended_disparity subpixel lr_check calib hL hR hb,
    rfl, rfl, rfl, rfl, rfl, ?_⟩
  intro fr arr s2 h
  rw [loopIteration_cam ⟨_, fr⟩ arr s2 h]

/-- Calibration data used by concrete witnesses: identity intrinsics and
rotations, baseline 7.5 cm. -/
def calibW : CalibData :=
  { intrinsics := fun _ _ _ => 1
    distortion := fun _ => []
    fov := fun _ => 0
    stereoLeftRot := 1
    stereoRightRot := 1
    baselineDistance := 15 / 2 }

theorem c4_witness :
    ∃ cam : Camera,
      mkCamera (1920, 1080) (1280, 720) true true true calibW = .ok cam ∧
      cam.Q 2 3 = cam.M_left 0 0 ∧ cam.Q 3 2 = -1 / cam.baseline := by
  obtain ⟨cam, h1, _, _, _, h5, h6, _⟩ :=
    c4_reprojection_matrix (1920, 1080) (1280, 720) true true true calibW
      (by simp [calibW]) (by simp [calibW]) (by norm_num [calibW])
  exact ⟨cam, h1, h5, h6⟩

/-- Claim C5: for every valid (invertible) intrinsics input on which
construction succeeds, the rectification homographies computed once at init
satisfy `H_left = M_right · R_left · inverse(M_left)` and
`H_right = M_right · R_left · inverse(M_right)`, where `R_left` (the LEFT
stereo rectification rotation) appears in both formulas, `inverse` is a true
matrix inverse on these inputs, and the right rotation `R2` is read (stored
on the instance) but unused: changing it changes neither homography. -/
theorem c5_homographies (rgb_size mono_size : ℕ × ℕ)
    (extended_disparity subpixel lr_check : Bool) (calib : CalibData)
    (hL : (calib.intrinsics .LEFT mono_size.1 mono_size.2).det ≠ 0)
    (hR : (calib.intrinsics .RIGHT mono_size.1 mono_size.2).det ≠ 0)
    (hb : calib.baselineDistance ≠ 0) :
    ∃ cam : Camera,
      mkCamera rgb_size mono_size extended_disparity subpixel lr_check calib = .ok cam ∧
      cam.H_left = calib.intrinsics .RIGHT mono_size.1 mono_size.2 * calib.stereoLeftRot *
        inv3 (calib.intrinsics .LEFT mono_size.1 mono_size.2) ∧
      cam.H_right = calib.intrinsics .RIGHT mono_size.1 mono_size.2 * calib.stereoLeftRot *
        inv3 (calib.intrinsics .RIGHT mono_size.1 mono_size.2) ∧
      calib.intrinsics .LEFT mono_size.1 mono_size.2 *
        inv3 (calib.intrinsics .LEFT mono_size.1 mono_size.2) = 1 ∧
      inv3 (calib.intrinsics .LEFT mono_size.1 mono_size.2) *
        calib.intrinsics .LEFT mono_size.1 mono_size.2 = 1 ∧
      calib.intrinsics .RIGHT mono_size.1 mono_size.2 *
        inv3 (calib.intrinsics .RIGHT mono_size.1 mono_size.2) = 1 ∧
      inv3 (calib.intrinsics .RIGHT mono_size.1 mono_size.2) *
        calib.intrinsics .RIGHT mono_size.1 mono_size.2 = 1 ∧
      cam.R1 = calib.stereoLeftRot ∧
      cam.R2 = calib.stereoRightRot ∧
      (∀ R2' : Mat3, ∃ cam2 : Camera,
        mkCamera rgb_size mono_size extended_disparity subpixel lr_check
          { calib with stereoRightRot := R2' } = .ok cam2 ∧
        cam2.H_left = cam.H_left ∧ cam2.H_right = cam.H_right) := by
  refine ⟨mkCameraOk rgb_size mono_size extended_disparity subpixel lr_check calib,
    mkCamera_eq_ok rgb_size mono_size extended_disparity subpixel lr_check calib hL hR hb,
    rfl, rfl, inv3_mul_self hL, self_mul_inv3 hL, inv3_mul_self hR, self_mul_inv3 hR,
    rfl, rfl, ?_⟩
  intro R2'
  exact ⟨mkCameraOk rgb_size mono_size extended_disparity subpixel lr_check
      { calib with stereoRightRot := R2' },
    mkCamera_eq_ok rgb_size mono_size extended_disparity subpixel lr_check
      { calib with stereoRightRot := R2' } hL hR hb, rfl, rfl⟩

theorem c5_witness :
    ∃ cam : Camera,
      mkCamera (1920, 1080) (1280, 720) true true true calibW = .ok cam ∧
      cam.H_left = calibW.intrinsics .RIGHT 1280 720 * calibW.stereoLeftRot *
        inv3 (calibW.intrinsics .LEFT 1280 720) := by
  obtain ⟨cam, h1, h2, _⟩ :=
    c5_homographies (1920, 1080) (1280, 720) true true true calibW
      (by simp [calibW]) (by simp [calibW]) (by norm_num [calibW])
  exact ⟨cam, h1, h2⟩

/-- Claim C10: the constructor queries the RGB sensor's intrinsics at the
mono sensor width paired with the RGB height — `(monoSize.width,
rgbSize.height)` — not at the configured RGB width; the left and right mono
intrinsics are queried at `(monoSize.width, monoSize.height)`. -/
theorem c10_intrinsics_query (rgb_size mono_size : ℕ × ℕ)
    (extended_disparity subpixel lr_check : Bool) (calib : CalibData)
    (hL : (calib.intrinsics .LEFT mono_size.1 mono_size.2).det ≠ 0)
    (hR : (calib.intrinsics .RIGHT mono_size.1 mono_size.2).det ≠ 0)
    (hb : calib.baselineDistance ≠ 0) :
    ∃ cam : Camera,
      mkCamera rgb_size mono_size extended_disparity subpixel lr_check calib = .ok cam ∧
      cam.M_rgb = calib.intrinsics .RGB mono_size.1 rgb_size.2 ∧
      cam.M_left = calib.intrinsics .LEFT mono_size.1 mono_size.2 ∧
      cam.M_right = calib.intrinsics .RIGHT mono_size.1 mono_size.2 ∧
      (calib.intrinsics .RGB mono_size.1 rgb_size.2 ≠
          calib.intrinsics .RGB rgb_size.1 rgb_size.2 →
        cam.M_rgb ≠ calib.intrinsics .RGB rgb_size.1 rgb_size.2) := by
  exact ⟨mkCameraOk rgb_size mono_size extended_disparity subpixel lr_check calib,
    mkCamera_eq_ok rgb_size mono_size extended_disparity subpixel lr_check calib hL hR hb,
    rfl, rfl, rfl, fun h => h⟩

theorem c10_witness :
    ∃ cam : Camera,
      mkCamera (1920, 1080) (1280, 720) true true true calibW = .ok cam ∧
      cam.M_rgb = calibW.intrinsics .RGB 1280 1080 := by
  obtain ⟨cam, h1, h2, _⟩ :=
    c10_intrinsics_query (1920, 1080) (1280, 720) true true true calibW
      (by simp [calibW]) (by simp [calibW]) (by norm_num [calibW])
  exact ⟨cam, h1, h2⟩

/-- Calibration with zero baseline (identity intrinsics), the C7 input. -/
def calibB0 : CalibData :=
  { intrinsics := fun _ _ _ => 1
    distortion := fun _ => []
    fov := fun _ => 0
    stereoLeftRot := 1
    stereoRightRot := 1
    baselineDistance := 0 }

/-- Claim C7 counterexample: with baseline 0 (and otherwise valid
calibration), construction fails with `ZeroDivisionError` — the failure of
the division `-1.0 / baseline` performed while building `Q` — and not with
an explicit configuration-error rejection issued before `Q` construction;
the code contains no baseline check. -/
theorem c7_counterexample :
    mkCamera (1920, 1080) (1280, 720) true true true calibB0 =
      .error .zeroDivisionError ∧
    mkCamera (1920, 1080) (1280, 720) true true true calibB0 ≠
      .error .configurationError := by
  have h : mkCamera (1920, 1080) (1280, 720) true true true calibB0 =
      .error .zeroDivisionError := by
    simp [mkCamera, calibB0]
  exact ⟨h, by rw [h]; simp⟩

/-- Claim C7 (amended): construction with baseline = 0 is not detected by
any configuration check; it fails with the `ZeroDivisionError` raised by the
division `-1.0 / baseline` while the `Q` literal is being built (so no
camera object with a division-by-zero `Q` is ever exposed, but the rejection
is the division's own error during `Q` construction, not a configuration
error before it). -/
theorem c7_amended (rgb_size mono_size : ℕ × ℕ)
    (extended_disparity subpixel lr_check : Bool) (calib : CalibData)
    (hL : (calib.intrinsics .LEFT mono_size.1 mono_size.2).det ≠ 0)
    (hR : (calib.intrinsics .RIGHT mono_size.1 mono_size.2).det ≠ 0)
    (hb : calib.baselineDistance = 0) :
    mkCamera rgb_size mono_size extended_disparity subpixel lr_check calib =
      .error .zeroDivisionError := by
  simp [mkCamera, hL, hR, hb]

theorem c7_witness :
    mkCamera (3840, 2160) (640, 400) false false false calibB0 =
      .error .zeroDivisionError :=
  c7_amended (3840, 2160) (640, 400) false false false calibB0
    (by simp [calibB0]) (by simp [calibB0]) (by norm_num [calibB0])

/-- Claim C6: for a configured rgb height in `{1080, 2160}`, the pipeline
build succeeds and selects the matching sensor preset with the video size
set to the configured width and height unchanged (never clamped); for every
other height, `_create_cam_rgb` fails with the spec's `UnsupportedResolution`
error (raised in the code as `NotImplementedError`), and the whole `_target`
setup fails with that error before the device is opened — for *every*
possible device behaviour `openDevice`, i.e. before any device I/O. -/
theorem c6_rgb_resolution_policy (w h : ℕ) :
    (h = 1080 → create_cam_rgb w h =
      .ok { boardSocket := .RGB, resolution := .the1080P, videoWidth := w,
            videoHeight := h, streamName := "color_camera",
            xoutInputBlocking := false, xoutInputQueueSize := 1 }) ∧
    (h = 2160 → create_cam_rgb w h =
      .ok { boardSocket := .RGB, resolution := .the4K, videoWidth := w,
            videoHeight := h, streamName := "color_camera",
            xoutInputBlocking := false, xoutInputQueueSize := 1 }) ∧
    (h ≠ 1080 → h ≠ 2160 →
      create_cam_rgb w h = .error .notImplementedError ∧
      ∀ (cam : Camera) (α : Type)
        (openDevice : CamRgbNode → StereoNodes → Except Err α),
        cam.rgb_width = w → cam.rgb_height = h →
        targetSetup cam openDevice = .error .notImplementedError) := by
  refine ⟨fun h1 => ?_, fun h2 => ?_, fun h1 h2 => ⟨?_, ?_⟩⟩
  · subst h1; rfl
  · subst h2; rfl
  · simp [create_cam_rgb, h1, h2]
  · intro cam α openDevice hw hh
    simp [targetSetup, hw, hh, create_cam_rgb, h1, h2, Bind.bind, Except.bind]

theorem c6_witness :
    create_cam_rgb 1920 1080 =
      .ok { boardSocket := .RGB, resolution := .the1080P, videoWidth := 1920,
            videoHeight := 1080, streamName := "color_camera",
            xoutInputBlocking := false, xoutInputQueueSize := 1 } ∧
    create_cam_rgb 3840 2160 =
      .ok { boardSocket := .RGB, resolution := .the4K, videoWidth := 3840,
            videoHeight := 2160, streamName := "color_camera",
            xoutInputBlocking := false, xoutInputQueueSize := 1 } ∧
    create_cam_rgb 1920 720 = .error .notImplementedError :=
  ⟨(c6_rgb_resolution_policy 1920 1080).1 rfl,
   (c6_rgb_resolution_policy 3840 2160).2.1 rfl,
   ((c6_rgb_resolution_policy 1920 720).2.2 (by decide) (by decide)).1⟩

/-- A constant frame with pixel value `q`, used for concrete inputs. -/
def frameC (q : ℚ) : Frame := fun _ _ => q

/-- One frame available on every queue, a distinct one per stream. -/
def arrC1 : String → Option Frame := fun k =>
  if k = "color_camera" then some (frameC 1)
  else if k = "stereo" then some (frameC 2)
  else if k = "mono_left" then some (frameC 3)
  else if k = "mono_right" then some (frameC 4)
  else if k = "rectified_left" then some (frameC 5)
  else if k = "rectified_right" then some (frameC 6)
  else none

/-- The frame attributes after one full iteration consuming `arrC1`. -/
def afterC1 : FrameState :=
  { rgb_frame := none
    depth_frame := none
    left_frame := some (frameC 3)
    right_frame := some (frameC 4)
    rectified_left_frame := none
    rectified_right_frame := none
    color_frame := some (some (frameC 1))
    disparity := none
    left_rect_frame := some (some (frameC 5))
    right_rect_frame := some (some (frameC 6)) }

/-- Claim C1 (code bug, concrete run): after an iteration in which every
queue delivered a frame, only the mono `left_frame`/`right_frame` accessors
hold their received frames.  The color frame was received and stored — but
in the attribute `_color_frame`, while the `rgb_frame` accessor reads the
never-updated `_rgb_frame`, which still returns absent; likewise the
rectified frames land in `_left_rect_frame`/`_right_rect_frame` while the
accessors read `_rectified_left_frame`/`_rectified_right_frame`, and no
queue key at all is named `"disparity"` (the stereo depth queue's key is
`"stereo"`), so the `_disparity` branch never fires and the `disparity`
accessor's backing attribute `_depth_frame` is never written. -/
theorem c1_code_bug :
    iteration initFrames arrC1 = some afterC1 ∧
    OAK_Camera.rgb_frame afterC1 = none ∧
    OAK_Camera.disparity afterC1 = none ∧
    OAK_Camera.rectified_left_frame afterC1 = none ∧
    OAK_Camera.rectified_right_frame afterC1 = none ∧
    OAK_Camera.left_frame afterC1 = some (frameC 3) ∧
    OAK_Camera.right_frame afterC1 = some (frameC 4) ∧
    afterC1.color_frame = some (some (frameC 1)) ∧
    afterC1.left_rect_frame = some (some (frameC 5)) ∧
    "disparity" ∉ nodeKeys := by
  refine ⟨rfl, rfl, rfl, rfl, rfl, rfl, rfl, rfl, rfl, by decide⟩

/-- The camera instance used by concrete frame-store inputs. -/
def cameraW : Camera := mkCameraOk (1920, 1080) (1280, 720) true true true calibW

/-- Claim C2 (code bug, concrete run): on the attribute state `__init__`
leaves behind — before any frame has arrived — every one of the six
frame-slot accessors does return absent, but `compute_3d` does not return
the NotReady triple: it raises `AttributeError`, because it reads
`self._disparity`, an attribute `__init__` never created (`__init__`
initializes `_depth_frame` instead, and the loop never assigns `_disparity`
either). -/
theorem c2_code_bug :
    OAK_Camera.rgb_frame initFrames = none ∧
    OAK_Camera.disparity initFrames = none ∧
    OAK_Camera.left_frame initFrames = none ∧
    OAK_Camera.right_frame initFrames = none ∧
    OAK_Camera.rectified_left_frame initFrames = none ∧
    OAK_Camera.rectified_right_frame initFrames = none ∧
    compute_3d cameraW initFrames = .error .attributeError :=
  ⟨rfl, rfl, rfl, rfl, rfl, rfl, rfl⟩

theorem pollQueues_none_of_mem (ks : List String) (k : String) (hk : k ∈ ks)
    (f : FrameState) (arr : String → Option Frame) (ha : arr k = none) :
    pollQueues f ks arr = none := by
  induction ks generalizing f with
  | nil => cases hk
  | cons k0 ks ih =>
    rcases List.mem_cons.mp hk with rfl | hmem
    · unfold pollQueues
      rw [ha]
    · unfold pollQueues
      cases h0 : arr k0 with
      | none => rfl
      | some fr => exact ih hmem (updateSlot f k0 fr)

theorem pollQueues_isSome (ks : List String) (arr : String → Option Frame)
    (hall : ∀ k ∈ ks, (arr k).isSome) (f : FrameState) :
    (pollQueues f ks arr).isSome := by
  induction ks generalizing f with
  | nil => rfl
  | cons k0 ks ih =>
    obtain ⟨fr, hfr⟩ := Option.isSome_iff_exists.mp (hall k0 (List.mem_cons_self k0 ks))
    unfold pollQueues
    rw [hfr]
    exact ih (fun k hk => hall k (List.mem_cons_of_mem k0 hk)) (updateSlot f k0 fr)

/-- A queue arrival pattern with the rectified-left queue empty and every
other queue full. -/
def arrC8 : String → Option Frame := fun k =>
  if k = "rectified_left" then none else some (frameC 7)

/-- Claim C8 counterexample: with the rectified-left queue holding no frame
and every other queue holding one, the acquisition iteration does not
complete at all — `queue.get()` is depthai's blocking receive (`tryGet` is
the non-blocking poll the code does not use), so the loop stalls on the
empty queue instead of skipping it; there is no post-iteration state in
which that queue's slot is unchanged while the other slots were updated. -/
theorem c8_counterexample :
    arrC8 "rectified_left" = none ∧
    (∀ k ∈ nodeKeys, k ≠ "rectified_left" → (arrC8 k).isSome) ∧
    iteration initFrames arrC8 = none := by
  refine ⟨rfl, by decide, rfl⟩

/-- Claim C8 (amended): every output queue is indeed created non-blocking
with capacity one (`maxSize=1`, `blocking=False` — latest-frame-wins on the
device side), but the loop's per-queue receive is the blocking `get()`, not
a non-blocking poll: an iteration in which any polled queue has no frame
ready never completes (no slot observes that iteration), and it completes
exactly when every queue yields a frame. -/
theorem c8_queue_discipline :
    (∀ q ∈ outputQueues, q.maxSize = 1 ∧ q.blocking = false) ∧
    (∀ (f : FrameState) (arr : String → Option Frame) (k : String),
      k ∈ nodeKeys → arr k = none → iteration f arr = none) ∧
    (∀ (f : FrameState) (arr : String → Option Frame),
      (∀ k ∈ nodeKeys, (arr k).isSome) → (iteration f arr).isSome) := by
  refine ⟨by decide, ?_, ?_⟩
  · intro f arr k hk ha
    exact pollQueues_none_of_mem nodeKeys k hk f arr ha
  · intro f arr hall
    exact pollQueues_isSome nodeKeys arr hall f

theorem c8_witness :
    iteration initFrames arrC8 = none ∧
    (iteration initFrames (fun _ => some (frameC 8))).isSome :=
  ⟨c8_queue_discipline.2.1 initFrames arrC8 "rectified_left" (by decide) rfl,
   c8_queue_discipline.2.2 initFrames (fun _ => some (frameC 8)) (fun _ _ => rfl)⟩

theorem updateSlot_untouched (f : FrameState) (k : String) (fr : Frame)
    (hk : k ∈ nodeKeys) :
    (updateSlot f k fr).disparity = f.disparity ∧
    (updateSlot f k fr).rectified_left_frame = f.rectified_left_frame := by
  simp only [nodeKeys, List.mem_cons, List.mem_singleton, List.not_mem_nil, or_false] at hk
  rcases hk with rfl | rfl | rfl | rfl | rfl | rfl <;> exact ⟨rfl, rfl⟩

theorem pollQueues_untouched (ks : List String) (hsub : ∀ k ∈ ks, k ∈ nodeKeys)
    (arr : String → Option Frame) :
    ∀ (f f2 : FrameState), pollQueues f ks arr = some f2 →
      f2.disparity = f.disparity ∧
      f2.rectified_left_frame = f.rectified_left_frame := by
  induction ks with
  | nil =>
    intro f f2 h
    cases h
    exact ⟨rfl, rfl⟩
  | cons k0 ks ih =>
    intro f f2 h
    unfold pollQueues at h
    cases h0 : arr k0 with
    | none => rw [h0] at h; cases h
    | some fr =>
      rw [h0] at h
      have hstep := updateSlot_untouched f k0 fr (hsub k0 (List.mem_cons_self k0 ks))
      have hrest := ih (fun k hk => hsub k (List.mem_cons_of_mem k0 hk))
        (updateSlot f k0 fr) f2 h
      exact ⟨hrest.1.trans hstep.1, hrest.2.trans hstep.2⟩

theorem runLoop_untouched (arrs : List (String → Option Frame)) :
    ∀ (f f2 : FrameState), runLoop f arrs = some f2 →
      f2.disparity = f.disparity ∧
      f2.rectified_left_frame = f.rectified_left_frame := by
  induction arrs with
  | nil =>
    intro f f2 h
    cases h
    exact ⟨rfl, rfl⟩
  | cons a arrs ih =>
    intro f f2 h
    unfold runLoop at h
    cases h0 : iteration f a with
    | none => rw [h0] at h; cases h
    | some f1 =>
      rw [h0] at h
      have hstep := pollQueues_untouched nodeKeys (fun k hk => hk) a f f1 h0
      have hrest := ih f1 f2 h
      exact ⟨hrest.1.trans hstep.1, hrest.2.trans hstep.2⟩

/-- Claim C9 (code bug): the torn-pair invariant is unrealizably vacuous.
In every state reachable by any number of completed acquisition iterations
(the lock makes each iteration atomic with respect to `compute_3d`'s
snapshot, so these are exactly the states any reader can observe), the
attribute `_disparity` still does not exist — no queue key is `"disparity"`,
so the loop branch assigning it never fires — and `_rectified_left_frame`
was never updated.  Consequently every `compute_3d` call raises
`AttributeError`: no call ever returns a non-NotReady result, let alone a
consistent disparity/rectified-left pair. -/
theorem c9_snapshot_unrealizable (arrs : List (String → Option Frame))
    (f2 : FrameState) (h : runLoop initFrames arrs = some f2) :
    f2.disparity = none ∧
    f2.rectified_left_frame = none ∧
    ∀ cam : Camera, compute_3d cam f2 = .error .attributeError ∧
      ∀ res : PointCloud × Frame × Frame, compute_3d cam f2 ≠ .ok (some res) := by
  obtain ⟨hd, hl⟩ := runLoop_untouched arrs initFrames f2 h
  refine ⟨hd, hl, fun cam => ?_⟩
  have hc : compute_3d cam f2 = .error .attributeError := by
    unfold compute_3d
    rw [hd]
    rfl
  exact ⟨hc, fun res => by rw [hc]; simp⟩

/-- Frames delivered on every queue, used for the C9 witness run. -/
def arrC9 : String → Option Frame := fun _ => some (frameC 9)

/-- The frame attributes after one full iteration consuming `arrC9`. -/
def afterC9 : FrameState :=
  { rgb_frame := none
    depth_frame := none
    left_frame := some (frameC 9)
    right_frame := some (frameC 9)
    rectified_left_frame := none
    rectified_right_frame := none
    color_frame := some (some (frameC 9))
    disparity := none
    left_rect_frame := some (some (frameC 9))
    right_rect_frame := some (some (frameC 9)) }

theorem c9_witness :
    runLoop initFrames [arrC9] = some afterC9 ∧
    compute_3d cameraW afterC9 = .error .attributeError :=
  ⟨rfl, ((c9_snapshot_unrealizable [arrC9] afterC9 rfl).2.2 cameraW).1⟩

theorem mulVec_entry (Q : Mat4) (x y d : ℚ) (i : Fin 4) :
    Q.mulVec ![x, y, d, 1] i = Q i 0 * x + Q i 1 * y + Q i 2 * d + Q i 3 := by
  have hs : Q.mulVec ![x, y, d, 1] i = ∑ j : Fin 4, Q i j * ![x, y, d, 1] j := rfl
  have h0 : (![x, y, d, 1] : Fin 4 → ℚ) 0 = x := rfl
  have h1 : (![x, y, d, 1] : Fin 4 → ℚ) 1 = y := rfl
  have h2 : (![x, y, d, 1] : Fin 4 → ℚ) 2 = d := rfl
  have h3 : (![x, y, d, 1] : Fin 4 → ℚ) 3 = 1 := rfl
  rw [hs, Fin.sum_univ_four, h0, h1, h2, h3, mul_one]

/-- Claim C3: when both the disparity attribute and the rectified-left slot
are present, `compute_3d` returns the triple (point cloud, disparity map,
left frame) in which the point cloud assigns to every pixel `(x, y)` with
disparity `d` the dehomogenization (division by the fourth component) of
`Q · [x, y, d, 1]ᵗ`; and, for the `Q` built by the constructor from any
nonzero baseline, a pixel has the sentinel (invalid) point exactly when its
disparity is zero — sentinels are propagated in the cloud, not filtered. -/
theorem c3_reprojection (cam : Camera) (f : FrameState) (D L : Frame)
    (hd : f.disparity = some (some D)) (hl : f.rectified_left_frame = some L) :
    compute_3d cam f = .ok (some (reprojectImageTo3D D cam.Q, D, L)) ∧
    (∀ x y : ℕ, reprojectImageTo3D D cam.Q x y =
      if cam.Q.mulVec ![(x : ℚ), (y : ℚ), D x y, 1] 3 = 0 then none
      else some
        (cam.Q.mulVec ![(x : ℚ), (y : ℚ), D x y, 1] 0 /
            cam.Q.mulVec ![(x : ℚ), (y : ℚ), D x y, 1] 3,
          cam.Q.mulVec ![(x : ℚ), (y : ℚ), D x y, 1] 1 /
            cam.Q.mulVec ![(x : ℚ), (y : ℚ), D x y, 1] 3,
          cam.Q.mulVec ![(x : ℚ), (y : ℚ), D x y, 1] 2 /
            cam.Q.mulVec ![(x : ℚ), (y : ℚ), D x y, 1] 3)) ∧
    (∀ b cx cy fo : ℚ, b ≠ 0 → cam.Q = mkQ cx cy fo b →
      ∀ x y : ℕ, (reprojectImageTo3D D cam.Q x y = none ↔ D x y = 0)) := by
  refine ⟨?_, ?_, ?_⟩
  · unfold compute_3d
    rw [hd, hl]
  · intro x y
    rw [reprojectImageTo3D, reproject]
    simp only [mulVec_entry, mul_one]
  · intro b cx cy fo hb hQ x y
    rw [hQ, reprojectImageTo3D, reproject]
    have e0 : mkQ cx cy fo b 3 0 = 0 := rfl
    have e1 : mkQ cx cy fo b 3 1 = 0 := rfl
    have e2 : mkQ cx cy fo b 3 2 = -1 / b := rfl
    have e3 : mkQ cx cy fo b 3 3 = 0 := rfl
    rw [e0, e1, e2, e3]
    have hW : (0 : ℚ) * x + 0 * y + -1 / b * D x y + 0 = -(D x y / b) := by ring
    rw [hW]
    rcases eq_or_ne (D x y) 0 with h0 | h0
    · simp [h0]
    · have hne : -(D x y / b) ≠ 0 := by
        simp [div_eq_zero_iff, h0, hb]
      simp [hne, h0]

/-- A constant disparity map with value 50, and a left frame, for the C3
witness state. -/
def dispC3 : Frame := fun _ _ => 50

def leftC3 : Frame := fun _ _ => 10

def framesC3 : FrameState :=
  { rgb_frame := none
    depth_frame := none
    left_frame := none
    right_frame := none
    rectified_left_frame := some leftC3
    rectified_right_frame := none
    color_frame := none
    disparity := some (some dispC3)
    left_rect_frame := none
    right_rect_frame := none }

theorem c3_witness :
    compute_3d cameraW framesC3 =
      .ok (some (reprojectImageTo3D dispC3 cameraW.Q, dispC3, leftC3)) :=
  (c3_reprojection cameraW framesC3 dispC3 leftC3 rfl rfl).1
